import Mathlib

/-!
Shallow embedding of the resource/build subsystem of
`src/code/09_create_sbt.hpp` (a minimal Vulkan hardware ray tracer):
the `Buffer` abstraction, the acceleration-structure build protocol
(`AccelStruct`), the bottom-level/top-level scene build, and the
shader-binding-table assembly.  The Vulkan device is modelled as an
oracle (`Device`) supplying memory requirements, device addresses,
build sizes and shader-group handles; fatal aborts in the source
(`std::abort` after a diagnostic on `std::cerr`) are modelled as
`Except.error` carrying the diagnostic string.  Buffer and
acceleration-structure handles are modelled as natural-number ids
supplied by the caller.
-/

namespace VkRt

/-- Little-endian byte encoding of a 32-bit value, as 4 bytes. -/
def u32le (x : Nat) : List Nat :=
  [x % 256, x / 256 % 256, x / 65536 % 256, x / 16777216 % 256]

/-- Little-endian byte encoding of a 64-bit value, as 8 bytes. -/
def u64le (x : Nat) : List Nat :=
  u32le (x % 4294967296) ++ u32le (x / 4294967296)

/-- The subset of `vk::BufferUsageFlagBits` used by the program. -/
structure BufferUsage where
  shaderBindingTable : Bool := false
  transferSrc : Bool := false
  shaderDeviceAddress : Bool := false
  accelerationStructureStorage : Bool := false
  accelerationStructureBuildInputReadOnly : Bool := false
  storageBuffer : Bool := false
deriving DecidableEq, Repr, Inhabited

/-- The subset of `vk::MemoryPropertyFlagBits` used by the program. -/
structure MemoryProperty where
  deviceLocal : Bool := false
  hostVisible : Bool := false
  hostCoherent : Bool := false
deriving DecidableEq, Repr, Inhabited

/-- One entry of the physical device's memory-type table. -/
structure MemoryType where
  propertyFlags : MemoryProperty
deriving DecidableEq, Repr, Inhabited

/-- `vk::MemoryRequirements` as reported for a created buffer. -/
structure MemoryRequirements where
  size : Nat
  memoryTypeBits : Nat
deriving DecidableEq, Repr, Inhabited

/-- The ray-tracing pipeline properties the SBT assembly reads. -/
structure RTProperties where
  shaderGroupHandleSize : Nat
  shaderGroupHandleAlignment : Nat
deriving DecidableEq, Repr, Inhabited

/-- `vk::AccelerationStructureBuildSizesInfoKHR` (the fields the code reads). -/
structure BuildSizes where
  accelerationStructureSize : Nat
  buildScratchSize : Nat
deriving DecidableEq, Repr, Inhabited

/-- `vk::AccelerationStructureTypeKHR`. -/
inductive AccelType where
  | bottomLevel
  | topLevel
deriving DecidableEq, Repr, Inhabited

/-- Geometry payload: triangles (vertex/index buffer addresses, stride,
max vertex) or instances (instance-buffer address, array-of-pointers flag). -/
inductive GeometryData where
  | triangles (vertexAddress vertexStride maxVertex indexAddress : Nat)
  | instances (dataAddress : Nat) (arrayOfPointers : Bool)
deriving DecidableEq, Repr, Inhabited

/-- `vk::AccelerationStructureGeometryKHR`: payload plus the eOpaque flag. -/
structure Geometry where
  data : GeometryData
  opaq : Bool
deriving DecidableEq, Repr, Inhabited

/-- The Vulkan device modelled as an oracle.  Addresses are keyed by the
caller-supplied id of the buffer / acceleration structure being queried. -/
structure Device where
  memoryTypes : List MemoryType
  getBufferMemoryRequirements : Nat → BufferUsage → MemoryRequirements
  getBufferAddress : Nat → Nat
  getAccelerationStructureAddress : Nat → Nat
  getAccelerationStructureBuildSizes : AccelType → Geometry → Nat → BuildSizes
  getRayTracingShaderGroupHandles : Nat → Nat → Nat → Option (List Nat)
  createRayTracingPipelineSucceeds : Bool
  rtProperties : RTProperties

/-- Does memory type `t` offer every property requested in `req`? -/
def MemoryProperty.satisfiedBy (req t : MemoryProperty) : Bool :=
  (!req.deviceLocal || t.deviceLocal) &&
  (!req.hostVisible || t.hostVisible) &&
  (!req.hostCoherent || t.hostCoherent)

/-- Helper for `getMemoryType`: scan the memory-type list from index `i`. -/
def findMemoryTypeFrom (req : MemoryProperty) (bits : Nat) :
    List MemoryType → Nat → Option Nat
  | [], _ => none
  | t :: rest, i =>
      if bits.testBit i && req.satisfiedBy t.propertyFlags then some i
      else findMemoryTypeFrom req bits rest (i + 1)

/-- Modelled from the spec: `vkutils::getMemoryType` (vkutils.hpp is not under
src/).  Return the index of the first memory type whose bit is set in the
requirements bitmask and whose property flags are a superset of the requested
flags; fail fatally (`none`) when no matching type exists. -/
def getMemoryType (memoryTypes : List MemoryType) (req : MemoryRequirements)
    (memoryProperty : MemoryProperty) : Option Nat :=
  findMemoryTypeFrom memoryProperty req.memoryTypeBits memoryTypes 0

/-- A `Buffer` after `Buffer::init`: the created buffer (id standing for the
handle), its requested size/usage/memory property, the allocation made for it,
the bind offset, the map/copy performed for the optional upload, the bytes of
the backing memory, and the device address field. -/
structure Buffer where
  id : Nat
  size : Nat
  usage : BufferUsage
  requestedMemoryProperty : MemoryProperty
  allocationSize : Nat
  memoryTypeIndex : Nat
  allocateFlagsDeviceAddress : Bool
  bindOffset : Nat
  mapRange : Option (Nat × Nat)
  memContent : List Nat
  address : Nat
deriving DecidableEq, Repr, Inhabited

/-- `Buffer::init`: create the buffer, query memory requirements, chain the
device-address allocation flag when the usage asks for it, pick a memory type,
allocate `memoryReq.size` bytes, bind at offset 0, optionally map the range
[0, size), copy `size` bytes and unmap, and finally query the device address
when the usage asks for it (the field otherwise keeps its zero initializer). -/
def Buffer.init (dev : Device) (id : Nat) (size : Nat) (usage : BufferUsage)
    (memoryProperty : MemoryProperty) (data : Option (List Nat)) :
    Except String Buffer :=
  match getMemoryType dev.memoryTypes
      (dev.getBufferMemoryRequirements size usage) memoryProperty with
  | none => Except.error "failed to get memory type index."
  | some memoryType =>
      Except.ok {
        id := id
        size := size
        usage := usage
        requestedMemoryProperty := memoryProperty
        allocationSize := (dev.getBufferMemoryRequirements size usage).size
        memoryTypeIndex := memoryType
        allocateFlagsDeviceAddress := usage.shaderDeviceAddress
        bindOffset := 0
        mapRange := data.map (fun _ => (0, size))
        memContent :=
          match data with
          | none => List.replicate (dev.getBufferMemoryRequirements size usage).size 0
          | some d => d.take size ++
              (List.replicate (dev.getBufferMemoryRequirements size usage).size 0).drop size
        address := if usage.shaderDeviceAddress then dev.getBufferAddress id else 0 }

/-- Events logged by the build steps; `buildWaitReturned` marks the return of
the synchronous `oneTimeSubmit` (record, submit, wait queue idle) that carried
the build command, and `instanceRefSet` marks the copy of a bottom-level
structure's device address into a top-level instance record. -/
inductive Event where
  | buildSubmitted (ty : AccelType)
  | buildWaitReturned (ty : AccelType)
  | accelAddressStored (ty : AccelType) (addr : Nat)
  | instanceRefSet (addr : Nat)
deriving DecidableEq, Repr, Inhabited

/-- `vk::AccelerationStructureBuildRangeInfoKHR`. -/
structure BuildRangeInfo where
  primitiveCount : Nat
  primitiveOffset : Nat
  firstVertex : Nat
  transformOffset : Nat
deriving DecidableEq, Repr, Inhabited

/-- `vk::AccelerationStructureCreateInfoKHR` (the fields the code sets):
the buffer the structure object is bound to, its size, and its type. -/
structure AccelCreateInfo where
  bufferId : Nat
  size : Nat
  ty : AccelType
deriving DecidableEq, Repr, Inhabited

/-- An `AccelStruct` after `AccelStruct::init`: the backing `Buffer` (whose
address field ends up holding the structure's device address), the create
info that bound the structure object to that buffer, the separate scratch
buffer, the scratch address passed to the build, and the build range. -/
structure AccelStruct where
  accelId : Nat
  buffer : Buffer
  createInfo : AccelCreateInfo
  scratch : Buffer
  scratchData : Nat
  buildRange : BuildRangeInfo
deriving DecidableEq, Repr, Inhabited

/-- Usage of the buffer backing an acceleration structure
(`eAccelerationStructureStorageKHR` only). -/
def accelStorageUsage : BufferUsage := { accelerationStructureStorage := true }

/-- Usage of the scratch buffer (`eStorageBuffer | eShaderDeviceAddress`). -/
def scratchUsage : BufferUsage :=
  { storageBuffer := true, shaderDeviceAddress := true }

/-- `eDeviceLocal` memory. -/
def deviceLocalProperty : MemoryProperty := { deviceLocal := true }

/-- `eHostVisible | eHostCoherent` memory. -/
def hostVisibleCoherent : MemoryProperty :=
  { hostVisible := true, hostCoherent := true }

/-- `AccelStruct::init`: query build sizes, create the structure's buffer of
exactly the reported structure size (acceleration-structure storage usage and
device-local memory), create the structure object bound to that buffer, create
a second scratch buffer of exactly the reported scratch size (storage +
device-address usage, device-local memory), build through the synchronous
one-time submit with a single build range (offset 0, full primitive count,
first vertex 0, transform offset 0) and the scratch buffer's address as
workspace, then query the structure's device address and store it into the
buffer's address field. -/
def AccelStruct.init (dev : Device) (accelId bufferId scratchId : Nat)
    (ty : AccelType) (geometry : Geometry) (primitiveCount : Nat) :
    Except String (AccelStruct × List Event) :=
  match Buffer.init dev bufferId
      (dev.getAccelerationStructureBuildSizes ty geometry
        primitiveCount).accelerationStructureSize
      accelStorageUsage deviceLocalProperty none with
  | Except.error e => Except.error e
  | Except.ok buffer0 =>
      match Buffer.init dev scratchId
          (dev.getAccelerationStructureBuildSizes ty geometry
            primitiveCount).buildScratchSize
          scratchUsage deviceLocalProperty none with
      | Except.error e => Except.error e
      | Except.ok scratchBuffer =>
          Except.ok
            ({ accelId := accelId
               buffer :=
                 { buffer0 with
                   address := dev.getAccelerationStructureAddress accelId }
               createInfo :=
                 { bufferId := buffer0.id
                   size := (dev.getAccelerationStructureBuildSizes ty geometry
                     primitiveCount).accelerationStructureSize
                   ty := ty }
               scratch := scratchBuffer
               scratchData := scratchBuffer.address
               buildRange :=
                 { primitiveCount := primitiveCount
                   primitiveOffset := 0
                   firstVertex := 0
                   transformOffset := 0 } },
             [Event.buildSubmitted ty, Event.buildWaitReturned ty,
              Event.accelAddressStored ty
                (dev.getAccelerationStructureAddress accelId)])

/-- IEEE-754 single-precision bit pattern of the literal `1.0f`. -/
def fbitsOne : Nat := 0x3F800000

/-- IEEE-754 single-precision bit pattern of the literal `-1.0f`. -/
def fbitsMinusOne : Nat := 0xBF800000

/-- IEEE-754 single-precision bit pattern of the literal `0.0f`. -/
def fbitsZero : Nat := 0x00000000

/-- The triangle's vertices `{(1,1,0),(-1,1,0),(0,-1,0)}`, each coordinate as
the bit pattern of the source's float literal. -/
def triangleVertices : List (Nat × Nat × Nat) :=
  [(fbitsOne, fbitsOne, fbitsZero),
   (fbitsMinusOne, fbitsOne, fbitsZero),
   (fbitsZero, fbitsMinusOne, fbitsZero)]

/-- Byte image of the vertex vector (`sizeof(Vertex) = 12`). -/
def vertexBytes : List Nat :=
  triangleVertices.flatMap (fun v => u32le v.1 ++ u32le v.2.1 ++ u32le v.2.2)

/-- The index vector `{0, 1, 2}`. -/
def triangleIndices : List Nat := [0, 1, 2]

/-- Byte image of the index vector (`sizeof(uint32_t) = 4`). -/
def indexBytes : List Nat := triangleIndices.flatMap u32le

/-- The bottom-level build's primitive count:
`static_cast<uint32_t>(indices.size() / 3)`. -/
def blasPrimitiveCount (indices : List Nat) : Nat := indices.length / 3

/-- Usage of the vertex/index/instance build-input buffers
(`eAccelerationStructureBuildInputReadOnlyKHR | eShaderDeviceAddress`). -/
def buildInputUsage : BufferUsage :=
  { accelerationStructureBuildInputReadOnly := true, shaderDeviceAddress := true }

/-- `Application::createBottomLevelAS`: create host-visible vertex and index
buffers uploaded with the triangle data, wrap them into a triangles geometry,
and build a bottom-level structure with primitive count `indices.size() / 3`.
Buffer ids: vertex 0, index 1, structure buffer 2, scratch 3; accel id 0. -/
def createBottomLevelAS (dev : Device) : Except String (AccelStruct × List Event) :=
  match Buffer.init dev 0 (triangleVertices.length * 12) buildInputUsage
      hostVisibleCoherent (some vertexBytes) with
  | Except.error e => Except.error e
  | Except.ok vertexBuffer =>
      match Buffer.init dev 1 (triangleIndices.length * 4) buildInputUsage
          hostVisibleCoherent (some indexBytes) with
      | Except.error e => Except.error e
      | Except.ok indexBuffer =>
          AccelStruct.init dev 0 2 3 AccelType.bottomLevel
            { data := GeometryData.triangles vertexBuffer.address 12
                triangleVertices.length indexBuffer.address
              opaq := true }
            (blasPrimitiveCount triangleIndices)

/-- `vk::AccelerationStructureInstanceKHR` (the fields the code sets). -/
structure AccelInstance where
  transform : List Nat
  instanceCustomIndex : Nat
  mask : Nat
  sbtRecordOffset : Nat
  flagTriangleFacingCullDisable : Bool
  accelerationStructureReference : Nat
deriving DecidableEq, Repr, Inhabited

/-- The identity-like 3x4 row-major transform, as float bit patterns. -/
def identityTransform : List Nat :=
  [fbitsOne, fbitsZero, fbitsZero, fbitsZero,
   fbitsZero, fbitsOne, fbitsZero, fbitsZero,
   fbitsZero, fbitsZero, fbitsOne, fbitsZero]

/-- Byte image of an instance record (64 bytes): 12 floats, then the packed
24-bit custom index with the 8-bit mask, then the packed 24-bit SBT record
offset with the 8-bit flags (`eTriangleFacingCullDisable = 0x1`), then the
64-bit acceleration-structure reference. -/
def encodeAccelInstance (inst : AccelInstance) : List Nat :=
  inst.transform.flatMap u32le
  ++ u32le (inst.instanceCustomIndex % 16777216 + inst.mask % 256 * 16777216)
  ++ u32le (inst.sbtRecordOffset % 16777216 +
      (if inst.flagTriangleFacingCullDisable then 1 else 0) * 16777216)
  ++ u64le inst.accelerationStructureReference

/-- The single instance record of `Application::createTopLevelAS`: identity
transform, custom index 0, mask 0xFF, SBT record offset 0, back-face culling
disabled, and the bottom-level structure's device address as reference. -/
def mkTlasInstance (bottomAddress : Nat) : AccelInstance :=
  { transform := identityTransform
    instanceCustomIndex := 0
    mask := 0xFF
    sbtRecordOffset := 0
    flagTriangleFacingCullDisable := true
    accelerationStructureReference := bottomAddress }

/-- `Application::createTopLevelAS`: build the single instance record carrying
the bottom-level structure's device address, upload it into a host-visible
instance buffer, wrap that buffer's address into an instances geometry (no
array-of-pointers indirection), and build a top-level structure with primitive
count 1.  The address copy into the instance record is logged as an event
before the top-level build events.  Buffer ids: instance 4, structure buffer
5, scratch 6; accel id 1. -/
def createTopLevelAS (dev : Device) (bottomAccel : AccelStruct) :
    Except String (AccelStruct × AccelInstance × List Event) :=
  match Buffer.init dev 4 64 buildInputUsage hostVisibleCoherent
      (some (encodeAccelInstance (mkTlasInstance bottomAccel.buffer.address))) with
  | Except.error e => Except.error e
  | Except.ok instanceBuffer =>
      match AccelStruct.init dev 1 5 6 AccelType.topLevel
          { data := GeometryData.instances instanceBuffer.address false
            opaq := true } 1 with
      | Except.error e => Except.error e
      | Except.ok (topAccel, evs) =>
          Except.ok (topAccel, mkTlasInstance bottomAccel.buffer.address,
            Event.instanceRefSet
                (mkTlasInstance bottomAccel.buffer.address).accelerationStructureReference
              :: evs)

/-- Result of the scene-build portion of `Application::initVulkan`. -/
structure SceneResult where
  bottomAccel : AccelStruct
  topAccel : AccelStruct
  accelInstance : AccelInstance
  events : List Event
deriving DecidableEq, Repr, Inhabited

/-- The acceleration-structure portion of `Application::initVulkan`:
`createBottomLevelAS()` runs to completion (including the synchronous wait of
its build submission) strictly before `createTopLevelAS()` starts. -/
def buildScene (dev : Device) : Except String SceneResult :=
  match createBottomLevelAS dev with
  | Except.error e => Except.error e
  | Except.ok (bottomAccel, evB) =>
      match createTopLevelAS dev bottomAccel with
      | Except.error e => Except.error e
      | Except.ok (topAccel, accelInstance, evT) =>
          Except.ok
            { bottomAccel := bottomAccel
              topAccel := topAccel
              accelInstance := accelInstance
              events := evB ++ evT }

/-- The shader stages the program uses. -/
inductive ShaderStage where
  | raygen
  | miss
  | closestHit
deriving DecidableEq, Repr, Inhabited

/-- `vk::RayTracingShaderGroupTypeKHR` (the two kinds used). -/
inductive GroupType where
  | general
  | trianglesHitGroup
deriving DecidableEq, Repr, Inhabited

/-- `VK_SHADER_UNUSED_KHR`. -/
def SHADER_UNUSED : Nat := 0xFFFFFFFF

/-- One `vk::RayTracingShaderGroupCreateInfoKHR`. -/
structure ShaderGroup where
  groupType : GroupType
  generalShader : Nat
  closestHitShader : Nat
  anyHitShader : Nat
  intersectionShader : Nat
deriving DecidableEq, Repr, Inhabited

/-- `Application::addShader` (the group part): every slot starts unused, then
raygen/miss set the general shader of a general group and closest-hit sets the
closest-hit shader of a triangles hit group. -/
def addShaderGroup (shaderIndex : Nat) (stage : ShaderStage) : ShaderGroup :=
  let base : ShaderGroup :=
    { groupType := GroupType.general
      generalShader := SHADER_UNUSED
      closestHitShader := SHADER_UNUSED
      anyHitShader := SHADER_UNUSED
      intersectionShader := SHADER_UNUSED }
  match stage with
  | ShaderStage.raygen =>
      { base with groupType := GroupType.general, generalShader := shaderIndex }
  | ShaderStage.miss =>
      { base with groupType := GroupType.general, generalShader := shaderIndex }
  | ShaderStage.closestHit =>
      { base with
        groupType := GroupType.trianglesHitGroup
        closestHitShader := shaderIndex }

/-- `Application::prepareShaders`: three groups, in the fixed order
raygen (shader 0, group 0), miss (shader 1, group 1),
closest-hit (shader 2, group 2). -/
def shaderGroups : List ShaderGroup :=
  [addShaderGroup 0 ShaderStage.raygen,
   addShaderGroup 1 ShaderStage.miss,
   addShaderGroup 2 ShaderStage.closestHit]

/-- `Application::createRayTracingPipeline`: on failure of
`createRayTracingPipelineKHRUnique` the program prints the diagnostic to
`std::cerr` and calls `std::abort`; on success the pipeline is kept. -/
def createRayTracingPipeline (dev : Device) : Except String Unit :=
  if dev.createRayTracingPipelineSucceeds then Except.ok ()
  else Except.error "Failed to create ray tracing pipeline."

/-- Modelled from the spec: `vkutils::getAlignedSize` (vkutils.hpp is not
under src/): round the raw size up to the alignment,
`((size + align - 1) / align) * align`. -/
def getAlignedSize (value alignment : Nat) : Nat :=
  (value + alignment - 1) / alignment * alignment

/-- Writing `src` into a byte vector `dst` starting at offset 0 (the
`shaderHandleStorage` vector the handle query fills). -/
def writeBytes (dst src : List Nat) : List Nat :=
  src.take dst.length ++ dst.drop src.length

/-- Result of `Application::createShaderBindingTable`: the computed aligned
handle size, the arguments of the one handle query, and the three SBT
buffers. -/
structure SBTResult where
  handleSizeAligned : Nat
  queriedFirstGroup : Nat
  queriedGroupCount : Nat
  queriedDataSize : Nat
  raygenSBT : Buffer
  missSBT : Buffer
  hitSBT : Buffer
deriving DecidableEq, Repr, Inhabited

/-- Usage of the three SBT buffers
(`eShaderBindingTableKHR | eTransferSrc | eShaderDeviceAddress`). -/
def sbtBufferUsage : BufferUsage :=
  { shaderBindingTable := true
    transferSrc := true
    shaderDeviceAddress := true }

/-- `handleSizeAligned = getAlignedSize(handleSize, handleAlignment)` for a
given device. -/
def devHandleSizeAligned (dev : Device) : Nat :=
  getAlignedSize dev.rtProperties.shaderGroupHandleSize
    dev.rtProperties.shaderGroupHandleAlignment

/-- `sbtSize = groupCount * handleSizeAligned` for a given device. -/
def devSbtSize (dev : Device) : Nat :=
  shaderGroups.length * devHandleSizeAligned dev

/-- The `shaderHandleStorage` vector after the handle query wrote `handleData`
into it: `sbtSize` zero bytes overwritten from offset 0. -/
def devShaderHandleStorage (dev : Device) (handleData : List Nat) : List Nat :=
  writeBytes (List.replicate (devSbtSize dev) 0) handleData

/-- `Application::createShaderBindingTable`: read the handle size and
alignment from the ray-tracing properties, compute the aligned handle size,
query `groupCount * handleSizeAligned` bytes of handles in one call starting
at group 0 into a zero-initialized vector of that size (aborting with a
diagnostic on failure), then create the three SBT buffers — each of size
`handleSize` with SBT + transfer-source + device-address usage and
host-visible/host-coherent memory — uploading role `i`'s data from offset
`i * handleSizeAligned` of the queried storage (raygen 0, miss 1, hit 2).
Buffer ids: raygen 7, miss 8, hit 9. -/
def createShaderBindingTable (dev : Device) : Except String SBTResult :=
  match dev.getRayTracingShaderGroupHandles 0 shaderGroups.length (devSbtSize dev) with
  | none => Except.error "Failed to get ray tracing shader group handles."
  | some handleData =>
      match Buffer.init dev 7 dev.rtProperties.shaderGroupHandleSize
          sbtBufferUsage hostVisibleCoherent
          (some ((devShaderHandleStorage dev handleData).drop
            (0 * devHandleSizeAligned dev))) with
      | Except.error e => Except.error e
      | Except.ok raygenSBT =>
          match Buffer.init dev 8 dev.rtProperties.shaderGroupHandleSize
              sbtBufferUsage hostVisibleCoherent
              (some ((devShaderHandleStorage dev handleData).drop
                (1 * devHandleSizeAligned dev))) with
          | Except.error e => Except.error e
          | Except.ok missSBT =>
              match Buffer.init dev 9 dev.rtProperties.shaderGroupHandleSize
                  sbtBufferUsage hostVisibleCoherent
                  (some ((devShaderHandleStorage dev handleData).drop
                    (2 * devHandleSizeAligned dev))) with
              | Except.error e => Except.error e
              | Except.ok hitSBT =>
                  Except.ok
                    { handleSizeAligned := devHandleSizeAligned dev
                      queriedFirstGroup := 0
                      queriedGroupCount := shaderGroups.length
                      queriedDataSize := devSbtSize dev
                      raygenSBT := raygenSBT
                      missSBT := missSBT
                      hitSBT := hitSBT }

/-- A concrete well-behaved device used for witnesses and counterexamples:
one memory type offering every property, tight memory requirements, nonzero
addresses, fixed build sizes, a handle blob `[0, 1, ...]` of the requested
size, and the end-to-end scenario's ray-tracing properties (handle size 32,
handle alignment 64). -/
def devC : Device :=
  { memoryTypes :=
      [{ propertyFlags :=
          { deviceLocal := true, hostVisible := true, hostCoherent := true } }]
    getBufferMemoryRequirements := fun size _ =>
      { size := size, memoryTypeBits := 1 }
    getBufferAddress := fun id => id + 1
    getAccelerationStructureAddress := fun id => id + 100
    getAccelerationStructureBuildSizes := fun _ _ _ =>
      { accelerationStructureSize := 256, buildScratchSize := 128 }
    getRayTracingShaderGroupHandles := fun _ _ dataSize =>
      some (List.range dataSize)
    createRayTracingPipelineSucceeds := true
    rtProperties := { shaderGroupHandleSize := 32, shaderGroupHandleAlignment := 64 } }

/-- A device on which pipeline creation and the handle query both fail. -/
def devFail : Device :=
  { devC with
    createRayTracingPipelineSucceeds := false
    getRayTracingShaderGroupHandles := fun _ _ _ => none }

/-- A concrete triangles geometry (addresses 1 and 2) used as a closed input
for acceleration-structure theorems. -/
def geomC : Geometry :=
  { data := GeometryData.triangles 1 12 3 2, opaq := true }

/-- The buffer produced by a concrete upload call on `devC`. -/
def bufC : Buffer :=
  ((Buffer.init devC 0 5 buildInputUsage hostVisibleCoherent
      (some [10, 20, 30, 40, 50])).toOption).getD default

/-- The SBT assembly result on `devC`. -/
def sbtC : SBTResult :=
  ((createShaderBindingTable devC).toOption).getD default

/-- The bottom-level build result on `devC`. -/
def blasPairC : AccelStruct × List Event :=
  ((createBottomLevelAS devC).toOption).getD default

/-- The scene-build result on `devC`. -/
def sceneC : SceneResult :=
  ((buildScene devC).toOption).getD default

/-- A concrete acceleration-structure build on `devC` over `geomC`. -/
def accelPairC : AccelStruct × List Event :=
  ((AccelStruct.init devC 0 2 3 AccelType.bottomLevel geomC 1).toOption).getD default

/-- Everything `Buffer.init` guarantees about a successfully returned buffer,
read off the single success branch of the definition. -/
theorem buffer_init_ok_fields (dev : Device) (id size : Nat) (usage : BufferUsage)
    (memoryProperty : MemoryProperty) (data : Option (List Nat)) (b : Buffer)
    (h : Buffer.init dev id size usage memoryProperty data = Except.ok b) :
    b.id = id ∧ b.size = size ∧ b.usage = usage ∧
    b.requestedMemoryProperty = memoryProperty ∧
    b.allocationSize = (dev.getBufferMemoryRequirements size usage).size ∧
    b.allocateFlagsDeviceAddress = usage.shaderDeviceAddress ∧
    b.bindOffset = 0 ∧
    b.mapRange = data.map (fun _ => (0, size)) ∧
    b.memContent = (match data with
      | none => List.replicate (dev.getBufferMemoryRequirements size usage).size 0
      | some d => d.take size ++
          (List.replicate (dev.getBufferMemoryRequirements size usage).size 0).drop size) ∧
    b.address = (if usage.shaderDeviceAddress then dev.getBufferAddress id else 0) := by
  unfold Buffer.init at h
  cases data with
  | none =>
      split at h
      · exact absurd h (by simp)
      · cases h
        exact ⟨rfl, rfl, rfl, rfl, rfl, rfl, rfl, rfl, rfl, rfl⟩
  | some d =>
      split at h
      · exact absurd h (by simp)
      · cases h
        exact ⟨rfl, rfl, rfl, rfl, rfl, rfl, rfl, rfl, rfl, rfl⟩

/-- C4: for every raw handle size h > 0 and alignment a > 0 the aligned handle
size computed by `getAlignedSize` equals `((h + a - 1) / a) * a`, equals
`a * ((h + a - 1) / a)` where `(h + a - 1) / a` is exactly `ceil(h / a)` (the
least k with h ≤ a * k), and is consequently a multiple of a and at least h. -/
theorem aligned_handle_size_spec (h a : Nat) (hh : 0 < h) (ha : 0 < a) :
    getAlignedSize h a = (h + a - 1) / a * a ∧
    getAlignedSize h a = a * ((h + a - 1) / a) ∧
    (∀ k, h ≤ a * k ↔ (h + a - 1) / a ≤ k) ∧
    a ∣ getAlignedSize h a ∧
    h ≤ getAlignedSize h a := by
  have key : ∀ k, h ≤ a * k ↔ (h + a - 1) / a ≤ k := by
    intro k
    rw [Nat.div_le_iff_le_mul_add_pred ha]
    omega
  have hge : h ≤ (h + a - 1) / a * a := by
    have hx := (key ((h + a - 1) / a)).mpr (Nat.le_refl _)
    rw [Nat.mul_comm] at hx
    exact hx
  refine ⟨rfl, ?_, key, ?_, ?_⟩
  · unfold getAlignedSize
    rw [Nat.mul_comm]
  · unfold getAlignedSize
    exact dvd_mul_left _ _
  · unfold getAlignedSize
    exact hge

/-- C4 witness: the end-to-end scenario's handle size 32 and alignment 64. -/
theorem aligned_handle_size_spec_witness :
    0 < 32 ∧ 0 < 64 ∧ getAlignedSize 32 64 = 64 ∧
    64 ∣ getAlignedSize 32 64 ∧ 32 ≤ getAlignedSize 32 64 :=
  ⟨by decide, by decide, by decide,
   (aligned_handle_size_spec 32 64 (by decide) (by decide)).2.2.2.1,
   (aligned_handle_size_spec 32 64 (by decide) (by decide)).2.2.2.2⟩

/-- C7: when the optional data is present, `Buffer.init` maps the whole
[0, size) range of the freshly bound memory, copies exactly `size` bytes from
the source data, and reading the mapped bytes back immediately afterwards
yields content byte-identical to the source data. -/
theorem buffer_upload_roundtrip (dev : Device) (id size : Nat)
    (usage : BufferUsage) (memoryProperty : MemoryProperty)
    (d : List Nat) (b : Buffer)
    (hlen : d.length = size)
    (h : Buffer.init dev id size usage memoryProperty (some d) = Except.ok b) :
    b.mapRange = some (0, size) ∧ b.memContent.take size = d := by
  unfold Buffer.init at h
  split at h
  · exact absurd h (by simp)
  · cases h
    refine ⟨rfl, ?_⟩
    show (d.take size ++
        (List.replicate (dev.getBufferMemoryRequirements size usage).size 0).drop size).take
        size = d
    subst hlen
    rw [List.take_length]
    exact List.take_left d _

/-- C7 witness: a concrete 5-byte upload on `devC` reads back unchanged. -/
theorem buffer_upload_roundtrip_witness :
    ([10, 20, 30, 40, 50] : List Nat).length = 5 ∧
    (bufC.mapRange = some (0, 5) ∧
     bufC.memContent.take 5 = [10, 20, 30, 40, 50]) :=
  ⟨by decide,
   buffer_upload_roundtrip devC 0 5 buildInputUsage hostVisibleCoherent
     [10, 20, 30, 40, 50] bufC (by decide) rfl⟩

/-- C8: `Buffer.init` allocates backing memory of exactly the size reported by
the memory-requirements query — hence at least the requested size s on a
device whose report covers the request — and binds the buffer at offset 0. -/
theorem buffer_allocation_ge_requested (dev : Device) (id s : Nat)
    (usage : BufferUsage) (memoryProperty : MemoryProperty)
    (data : Option (List Nat)) (b : Buffer)
    (hs : 0 < s)
    (hreq : s ≤ (dev.getBufferMemoryRequirements s usage).size)
    (h : Buffer.init dev id s usage memoryProperty data = Except.ok b) :
    b.allocationSize = (dev.getBufferMemoryRequirements s usage).size ∧
    s ≤ b.allocationSize ∧ b.bindOffset = 0 := by
  obtain ⟨-, -, -, -, halloc, -, hoff, -, -, -⟩ :=
    buffer_init_ok_fields dev id s usage memoryProperty data b h
  exact ⟨halloc, halloc ▸ hreq, hoff⟩

/-- C8 witness: the concrete 5-byte buffer on `devC`. -/
theorem buffer_allocation_ge_requested_witness :
    0 < 5 ∧ 5 ≤ (devC.getBufferMemoryRequirements 5 buildInputUsage).size ∧
    (bufC.allocationSize = (devC.getBufferMemoryRequirements 5 buildInputUsage).size ∧
     5 ≤ bufC.allocationSize ∧ bufC.bindOffset = 0) :=
  ⟨by decide, by decide,
   buffer_allocation_ge_requested devC 0 5 buildInputUsage hostVisibleCoherent
     (some [10, 20, 30, 40, 50]) bufC (by decide) (by decide) rfl⟩

/-- C1 counterexample: on a device reporting handle size 32 and handle
alignment 64 (aligned handle size 64), `createShaderBindingTable` requests
each of the three SBT buffers with size 32 — the raw handle size — and not
the aligned handle size, refuting the claimed sizing. -/
theorem sbt_buffer_size_not_aligned_cex :
    Except.map
        (fun r => (r.raygenSBT.size, r.missSBT.size, r.hitSBT.size, r.handleSizeAligned))
        (createShaderBindingTable devC) = Except.ok (32, 32, 32, 64) ∧
    (32 : Nat) ≠ 64 :=
  ⟨rfl, by decide⟩

/-- C1 (amended): for each of the three roles (raygen, miss, hit),
`createShaderBindingTable` creates a GPU buffer whose requested size is
exactly the raw handle size (which coincides with the aligned handle size
only when the alignment divides it), with shader-binding-table +
transfer-source + device-address-capable usage and host-visible/host-coherent
memory. -/
theorem sbt_buffer_size_usage_memory (dev : Device) (r : SBTResult)
    (h : createShaderBindingTable dev = Except.ok r) :
    (r.raygenSBT.size = dev.rtProperties.shaderGroupHandleSize ∧
     r.missSBT.size = dev.rtProperties.shaderGroupHandleSize ∧
     r.hitSBT.size = dev.rtProperties.shaderGroupHandleSize) ∧
    (r.raygenSBT.usage = sbtBufferUsage ∧ r.missSBT.usage = sbtBufferUsage ∧
     r.hitSBT.usage = sbtBufferUsage) ∧
    (r.raygenSBT.requestedMemoryProperty = hostVisibleCoherent ∧
     r.missSBT.requestedMemoryProperty = hostVisibleCoherent ∧
     r.hitSBT.requestedMemoryProperty = hostVisibleCoherent) := by
  unfold createShaderBindingTable at h
  split at h
  · exact absurd h (by simp)
  · split at h
    · exact absurd h (by simp)
    · split at h
      · exact absurd h (by simp)
      · split at h
        · exact absurd h (by simp)
        · rename_i e1 rg hrg e2 ms hms e3 ht hht
          cases h
          obtain ⟨-, h1, h2, h3, -, -, -, -, -, -⟩ :=
            buffer_init_ok_fields _ _ _ _ _ _ _ hrg
          obtain ⟨-, h4, h5, h6, -, -, -, -, -, -⟩ :=
            buffer_init_ok_fields _ _ _ _ _ _ _ hms
          obtain ⟨-, h7, h8, h9, -, -, -, -, -, -⟩ :=
            buffer_init_ok_fields _ _ _ _ _ _ _ hht
          exact ⟨⟨h1, h4, h7⟩, ⟨h2, h5, h8⟩, ⟨h3, h6, h9⟩⟩

/-- C1 witness: the amended sizing/usage/memory facts on `devC`. -/
theorem sbt_buffer_size_usage_memory_witness :
    (sbtC.raygenSBT.size = devC.rtProperties.shaderGroupHandleSize ∧
     sbtC.missSBT.size = devC.rtProperties.shaderGroupHandleSize ∧
     sbtC.hitSBT.size = devC.rtProperties.shaderGroupHandleSize) ∧
    (sbtC.raygenSBT.usage = sbtBufferUsage ∧ sbtC.missSBT.usage = sbtBufferUsage ∧
     sbtC.hitSBT.usage = sbtBufferUsage) ∧
    (sbtC.raygenSBT.requestedMemoryProperty = hostVisibleCoherent ∧
     sbtC.missSBT.requestedMemoryProperty = hostVisibleCoherent ∧
     sbtC.hitSBT.requestedMemoryProperty = hostVisibleCoherent) :=
  sbt_buffer_size_usage_memory devC sbtC rfl

/-- The memory content of a buffer initialized with data: the first `size`
bytes of the data followed by the untouched zero bytes of the allocation. -/
theorem buffer_init_ok_memContent_some (dev : Device) (id size : Nat)
    (usage : BufferUsage) (memoryProperty : MemoryProperty) (d : List Nat)
    (b : Buffer)
    (h : Buffer.init dev id size usage memoryProperty (some d) = Except.ok b) :
    b.memContent = d.take size ++
      (List.replicate (dev.getBufferMemoryRequirements size usage).size 0).drop size := by
  obtain ⟨-, -, -, -, -, -, -, -, hmem, -⟩ :=
    buffer_init_ok_fields dev id size usage memoryProperty (some d) b h
  exact hmem

/-- Writing a full-length blob over a zero vector of equal length yields the
blob. -/
theorem writeBytes_full (src : List Nat) (n : Nat) (hlen : src.length = n) :
    writeBytes (List.replicate n 0) src = src := by
  subst hlen
  unfold writeBytes
  simp

/-- Taking `hs` bytes of an uploaded slice prefix recovers the slice prefix
when the slice reaches `hs` bytes. -/
theorem take_of_uploaded_slice (storage rest : List Nat) (k hs : Nat)
    (hk : k + hs ≤ storage.length) :
    ((storage.drop k).take hs ++ rest).take hs = (storage.drop k).take hs := by
  rw [List.take_append_of_le_length, List.take_take]
  · simp
  · rw [List.length_take, List.length_drop]
    omega

/-- Everything `AccelStruct.init` guarantees about a successful build, read
off the success branch of the definition. -/
theorem accel_init_ok_fields (dev : Device) (accelId bufferId scratchId : Nat)
    (ty : AccelType) (g : Geometry) (pc : Nat) (as : AccelStruct)
    (evs : List Event)
    (h : AccelStruct.init dev accelId bufferId scratchId ty g pc =
      Except.ok (as, evs)) :
    as.accelId = accelId ∧
    as.buffer.id = bufferId ∧
    as.buffer.size =
      (dev.getAccelerationStructureBuildSizes ty g pc).accelerationStructureSize ∧
    as.buffer.usage = accelStorageUsage ∧
    as.buffer.requestedMemoryProperty = deviceLocalProperty ∧
    as.buffer.address = dev.getAccelerationStructureAddress accelId ∧
    as.createInfo =
      { bufferId := bufferId
        size := (dev.getAccelerationStructureBuildSizes ty g pc).accelerationStructureSize
        ty := ty } ∧
    as.scratch.id = scratchId ∧
    as.scratch.size = (dev.getAccelerationStructureBuildSizes ty g pc).buildScratchSize ∧
    as.scratch.usage = scratchUsage ∧
    as.scratch.requestedMemoryProperty = deviceLocalProperty ∧
    as.scratchData = as.scratch.address ∧
    as.buildRange =
      { primitiveCount := pc
        primitiveOffset := 0
        firstVertex := 0
        transformOffset := 0 } ∧
    evs = [Event.buildSubmitted ty, Event.buildWaitReturned ty,
           Event.accelAddressStored ty (dev.getAccelerationStructureAddress accelId)] := by
  unfold AccelStruct.init at h
  split at h
  · exact absurd h (by simp)
  · split at h
    · exact absurd h (by simp)
    · rename_i e1 b0 hb0 e2 sc hsc
      cases h
      obtain ⟨hid, hsz, hus, hmp, -, -, -, -, -, -⟩ :=
        buffer_init_ok_fields _ _ _ _ _ _ _ hb0
      obtain ⟨hid2, hsz2, hus2, hmp2, -, -, -, -, -, -⟩ :=
        buffer_init_ok_fields _ _ _ _ _ _ _ hsc
      refine ⟨rfl, hid, hsz, hus, hmp, rfl, ?_, hid2, hsz2, hus2, hmp2,
        rfl, rfl, rfl⟩
      rw [hid]

/-- Shape of a successful bottom-level build: its event trace, the stored
structure address, and the primitive count passed to the build. -/
theorem createBottomLevelAS_ok (dev : Device) (as : AccelStruct)
    (evs : List Event)
    (h : createBottomLevelAS dev = Except.ok (as, evs)) :
    evs = [Event.buildSubmitted AccelType.bottomLevel,
           Event.buildWaitReturned AccelType.bottomLevel,
           Event.accelAddressStored AccelType.bottomLevel
             (dev.getAccelerationStructureAddress 0)] ∧
    as.buffer.address = dev.getAccelerationStructureAddress 0 ∧
    as.buildRange.primitiveCount = blasPrimitiveCount triangleIndices := by
  unfold createBottomLevelAS at h
  split at h
  · exact absurd h (by simp)
  · split at h
    · exact absurd h (by simp)
    · obtain ⟨-, -, -, -, -, haddr, -, -, -, -, -, -, hrange, hevs⟩ :=
        accel_init_ok_fields _ _ _ _ _ _ _ _ _ h
      exact ⟨hevs, haddr, by rw [hrange]⟩

/-- Shape of a successful top-level build: the returned instance record is the
one carrying the bottom-level structure's stored address, and the trace is the
address copy followed by the top-level build events. -/
theorem createTopLevelAS_ok (dev : Device) (bottomAccel topAccel : AccelStruct)
    (inst : AccelInstance) (evs : List Event)
    (h : createTopLevelAS dev bottomAccel = Except.ok (topAccel, inst, evs)) :
    inst = mkTlasInstance bottomAccel.buffer.address ∧
    evs = [Event.instanceRefSet bottomAccel.buffer.address,
           Event.buildSubmitted AccelType.topLevel,
           Event.buildWaitReturned AccelType.topLevel,
           Event.accelAddressStored AccelType.topLevel
             (dev.getAccelerationStructureAddress 1)] := by
  unfold createTopLevelAS at h
  split at h
  · exact absurd h (by simp)
  · split at h
    · exact absurd h (by simp)
    · rename_i e1 ib hib e2 ta evs2 hta
      cases h
      obtain ⟨-, -, -, -, -, -, -, -, -, -, -, -, -, hevs⟩ :=
        accel_init_ok_fields _ _ _ _ _ _ _ _ _ hta
      refine ⟨rfl, ?_⟩
      rw [hevs]
      rfl

/-- C2 counterexample: on `devC` the buffer owned by an `AccelStruct` after
`AccelStruct.init` was created without device-address-capable usage, yet its
address field is non-zero (it holds the structure's device address, written
over the buffer's zero address after the build), refuting the claimed
invariant for every exposed Buffer. -/
theorem accel_buffer_address_invariant_cex :
    Except.map
        (fun p => (p.1.buffer.usage.shaderDeviceAddress, p.1.buffer.address))
        (AccelStruct.init devC 0 2 3 AccelType.bottomLevel geomC 1)
      = Except.ok (false, 100) ∧ (100 : Nat) ≠ 0 :=
  ⟨rfl, by decide⟩

/-- C2 (amended): after `Buffer.init` returns, the buffer's address field is
non-zero iff device-address-capable usage was requested (on a device whose
address query returns non-zero); however this invariant does not extend to the
Buffer owned by an AccelStruct: `AccelStruct.init` creates that buffer without
device-address usage and then overwrites its address field with the
acceleration structure's device address. -/
theorem buffer_address_iff_usage_amended (dev : Device) (id size : Nat)
    (usage : BufferUsage) (memoryProperty : MemoryProperty)
    (data : Option (List Nat)) (b : Buffer)
    (accelId bufferId scratchId : Nat) (ty : AccelType) (g : Geometry)
    (pc : Nat) (as : AccelStruct) (evs : List Event)
    (hba : dev.getBufferAddress id ≠ 0)
    (hb : Buffer.init dev id size usage memoryProperty data = Except.ok b)
    (ha : AccelStruct.init dev accelId bufferId scratchId ty g pc =
      Except.ok (as, evs)) :
    (b.address ≠ 0 ↔ usage.shaderDeviceAddress = true) ∧
    as.buffer.usage.shaderDeviceAddress = false ∧
    as.buffer.address = dev.getAccelerationStructureAddress accelId := by
  obtain ⟨-, -, -, -, -, -, -, -, -, haddr⟩ :=
    buffer_init_ok_fields _ _ _ _ _ _ _ hb
  obtain ⟨-, -, -, hus, -, haddr2, -, -, -, -, -, -, -, -⟩ :=
    accel_init_ok_fields _ _ _ _ _ _ _ _ _ ha
  refine ⟨?_, ?_, haddr2⟩
  · rw [haddr]
    cases husage : usage.shaderDeviceAddress with
    | false => simp
    | true => simp [hba]
  · rw [hus]
    rfl

/-- C2 witness: the amended invariant at the concrete device `devC`. -/
theorem buffer_address_iff_usage_amended_witness :
    devC.getBufferAddress 0 ≠ 0 ∧
    ((bufC.address ≠ 0 ↔ buildInputUsage.shaderDeviceAddress = true) ∧
     accelPairC.1.buffer.usage.shaderDeviceAddress = false ∧
     accelPairC.1.buffer.address = devC.getAccelerationStructureAddress 0) :=
  ⟨by decide,
   buffer_address_iff_usage_amended devC 0 5 buildInputUsage hostVisibleCoherent
     (some [10, 20, 30, 40, 50]) bufC 0 2 3 AccelType.bottomLevel geomC 1
     accelPairC.1 accelPairC.2 (by decide) rfl rfl⟩

/-- C5: `AccelStruct.init` allocates the structure's buffer with exactly the
reported structure size, acceleration-structure-storage usage and device-local
memory, binds the structure object to that buffer, creates a second separate
scratch buffer of exactly the reported scratch size with device-address-capable
storage usage, passes the scratch buffer's address as build workspace, issues
a single build range (offset 0, full primitive count, transform offset 0), and
queries and stores the structure's own device address after the build. -/
theorem accel_struct_init_spec (dev : Device) (accelId bufferId scratchId : Nat)
    (ty : AccelType) (g : Geometry) (pc : Nat) (as : AccelStruct)
    (evs : List Event)
    (hsep : bufferId ≠ scratchId)
    (h : AccelStruct.init dev accelId bufferId scratchId ty g pc =
      Except.ok (as, evs)) :
    (as.buffer.size =
       (dev.getAccelerationStructureBuildSizes ty g pc).accelerationStructureSize ∧
     as.buffer.usage = accelStorageUsage ∧
     as.buffer.requestedMemoryProperty = deviceLocalProperty) ∧
    (as.createInfo.bufferId = as.buffer.id ∧
     as.createInfo.size =
       (dev.getAccelerationStructureBuildSizes ty g pc).accelerationStructureSize ∧
     as.createInfo.ty = ty) ∧
    (as.scratch.size =
       (dev.getAccelerationStructureBuildSizes ty g pc).buildScratchSize ∧
     as.scratch.usage = scratchUsage ∧
     as.scratch.id ≠ as.buffer.id) ∧
    as.scratchData = as.scratch.address ∧
    as.buildRange =
      { primitiveCount := pc
        primitiveOffset := 0
        firstVertex := 0
        transformOffset := 0 } ∧
    (as.buffer.address = dev.getAccelerationStructureAddress accelId ∧
     evs = [Event.buildSubmitted ty, Event.buildWaitReturned ty,
            Event.accelAddressStored ty
              (dev.getAccelerationStructureAddress accelId)]) := by
  obtain ⟨-, hbid, hbsz, hbus, hbmp, haddr, hci, hsid, hssz, hsus, -,
    hsd, hrange, hevs⟩ := accel_init_ok_fields _ _ _ _ _ _ _ _ _ h
  refine ⟨⟨hbsz, hbus, hbmp⟩, ⟨?_, ?_, ?_⟩, ⟨hssz, hsus, ?_⟩, hsd, hrange,
    haddr, hevs⟩
  · rw [hci, hbid]
  · rw [hci]
  · rw [hci]
  · rw [hsid, hbid]
    exact fun hx => hsep hx.symm

/-- C5 witness: the concrete build on `devC` (structure size 256, scratch size
128, build range (1, 0, 0, 0), stored address 100). -/
theorem accel_struct_init_spec_witness :
    (2 : Nat) ≠ 3 ∧
    accelPairC.1.buffer.size = 256 ∧
    accelPairC.1.scratch.size = 128 ∧
    accelPairC.1.buildRange =
      ({ primitiveCount := 1, primitiveOffset := 0, firstVertex := 0,
         transformOffset := 0 } : BuildRangeInfo) ∧
    accelPairC.1.buffer.address = 100 :=
  ⟨by decide,
   (accel_struct_init_spec devC 0 2 3 AccelType.bottomLevel geomC 1
     accelPairC.1 accelPairC.2 (by decide) rfl).1.1,
   (accel_struct_init_spec devC 0 2 3 AccelType.bottomLevel geomC 1
     accelPairC.1 accelPairC.2 (by decide) rfl).2.2.1.1,
   (accel_struct_init_spec devC 0 2 3 AccelType.bottomLevel geomC 1
     accelPairC.1 accelPairC.2 (by decide) rfl).2.2.2.2.1,
   (accel_struct_init_spec devC 0 2 3 AccelType.bottomLevel geomC 1
     accelPairC.1 accelPairC.2 (by decide) rfl).2.2.2.2.2.1⟩

/-- C3: `createShaderBindingTable` queries `groupCount * alignedHandleSize`
bytes of handle data in one call starting at group index 0, and each role's
buffer is uploaded from the slice of the queried blob starting at byte
`i * alignedHandleSize` (raygen i = 0, miss i = 1, hit i = 2), receiving the
first `handleSize` bytes of that slice. -/
theorem sbt_handle_query_and_slices (dev : Device) (r : SBTResult)
    (blob : List Nat)
    (hq : dev.getRayTracingShaderGroupHandles 0 shaderGroups.length
      (devSbtSize dev) = some blob)
    (hlen : blob.length = devSbtSize dev)
    (hsa : dev.rtProperties.shaderGroupHandleSize ≤ devHandleSizeAligned dev)
    (h : createShaderBindingTable dev = Except.ok r) :
    (r.queriedFirstGroup = 0 ∧
     r.queriedGroupCount = shaderGroups.length ∧
     r.queriedDataSize = shaderGroups.length * r.handleSizeAligned ∧
     r.handleSizeAligned = devHandleSizeAligned dev) ∧
    (r.raygenSBT.memContent.take dev.rtProperties.shaderGroupHandleSize =
       (blob.drop (0 * devHandleSizeAligned dev)).take
         dev.rtProperties.shaderGroupHandleSize ∧
     r.missSBT.memContent.take dev.rtProperties.shaderGroupHandleSize =
       (blob.drop (1 * devHandleSizeAligned dev)).take
         dev.rtProperties.shaderGroupHandleSize ∧
     r.hitSBT.memContent.take dev.rtProperties.shaderGroupHandleSize =
       (blob.drop (2 * devHandleSizeAligned dev)).take
         dev.rtProperties.shaderGroupHandleSize) := by
  have hsbt3 : devSbtSize dev = 3 * devHandleSizeAligned dev := rfl
  unfold createShaderBindingTable at h
  split at h
  · exact absurd h (by simp)
  · split at h
    · exact absurd h (by simp)
    · split at h
      · exact absurd h (by simp)
      · split at h
        · exact absurd h (by simp)
        · rename_i o hd hq2 e1 rg hrg e2 ms hms e3 ht hht
          cases h
          rw [hq] at hq2
          injection hq2 with hbe
          subst hbe
          have hst : devShaderHandleStorage dev blob = blob :=
            writeBytes_full blob (devSbtSize dev) hlen
          rw [hst] at hrg hms hht
          have hmr := buffer_init_ok_memContent_some _ _ _ _ _ _ _ hrg
          have hmm := buffer_init_ok_memContent_some _ _ _ _ _ _ _ hms
          have hmh := buffer_init_ok_memContent_some _ _ _ _ _ _ _ hht
          refine ⟨⟨rfl, rfl, rfl, rfl⟩, ?_, ?_, ?_⟩
          · show rg.memContent.take _ = _
            rw [hmr]
            exact take_of_uploaded_slice _ _ _ _ (by omega)
          · show ms.memContent.take _ = _
            rw [hmm]
            exact take_of_uploaded_slice _ _ _ _ (by omega)
          · show ht.memContent.take _ = _
            rw [hmh]
            exact take_of_uploaded_slice _ _ _ _ (by omega)

set_option maxRecDepth 20000 in
/-- C3 witness: the end-to-end scenario — handle size 32, alignment 64, three
groups, 192-byte queried blob; raygen receives bytes [0:32], miss bytes
[64:96], hit bytes [128:160]. -/
theorem sbt_handle_query_and_slices_witness :
    ((sbtC.queriedFirstGroup = 0 ∧
      sbtC.queriedGroupCount = shaderGroups.length ∧
      sbtC.queriedDataSize = shaderGroups.length * sbtC.handleSizeAligned ∧
      sbtC.handleSizeAligned = devHandleSizeAligned devC) ∧
     (sbtC.raygenSBT.memContent.take devC.rtProperties.shaderGroupHandleSize =
        ((List.range 192).drop (0 * devHandleSizeAligned devC)).take
          devC.rtProperties.shaderGroupHandleSize ∧
      sbtC.missSBT.memContent.take devC.rtProperties.shaderGroupHandleSize =
        ((List.range 192).drop (1 * devHandleSizeAligned devC)).take
          devC.rtProperties.shaderGroupHandleSize ∧
      sbtC.hitSBT.memContent.take devC.rtProperties.shaderGroupHandleSize =
        ((List.range 192).drop (2 * devHandleSizeAligned devC)).take
          devC.rtProperties.shaderGroupHandleSize)) ∧
    (sbtC.queriedDataSize = 192 ∧
     sbtC.raygenSBT.memContent.take 32 = (List.range 192).take 32 ∧
     sbtC.missSBT.memContent.take 32 = ((List.range 192).drop 64).take 32 ∧
     sbtC.hitSBT.memContent.take 32 = ((List.range 192).drop 128).take 32) :=
  ⟨sbt_handle_query_and_slices devC sbtC (List.range 192) rfl (by decide)
     (by decide) rfl,
   by decide⟩

/-- C6: in the scene build, the instance record embedded in the top-level
build input carries the bottom-level structure's device address, that address
is non-zero (the bottom-level build's synchronous wait has returned and its
address was stored), and in the event trace the bottom-level build's wait
return (index 1) strictly precedes the address copy into the instance record
(index 3), which strictly precedes the top-level build submission
(index 4). -/
theorem blas_before_tlas_ordering (dev : Device) (s : SceneResult)
    (hnz : ∀ i, dev.getAccelerationStructureAddress i ≠ 0)
    (h : buildScene dev = Except.ok s) :
    s.accelInstance.accelerationStructureReference =
      s.bottomAccel.buffer.address ∧
    s.bottomAccel.buffer.address ≠ 0 ∧
    (s.events[1]? = some (Event.buildWaitReturned AccelType.bottomLevel) ∧
     s.events[3]? = some (Event.instanceRefSet s.bottomAccel.buffer.address) ∧
     s.events[4]? = some (Event.buildSubmitted AccelType.topLevel)) := by
  unfold buildScene at h
  split at h
  · exact absurd h (by simp)
  · split at h
    · exact absurd h (by simp)
    · rename_i e1 blas evB hblas e2 tlas inst evT htlas
      cases h
      obtain ⟨hevB, haddr, -⟩ := createBottomLevelAS_ok _ _ _ hblas
      obtain ⟨hinst, hevT⟩ := createTopLevelAS_ok _ _ _ _ _ htlas
      subst hevB
      subst hevT
      subst hinst
      exact ⟨rfl, haddr ▸ hnz 0, rfl, rfl, rfl⟩

/-- C6 witness: the scene build on `devC` (bottom-level address 100). -/
theorem blas_before_tlas_ordering_witness :
    sceneC.accelInstance.accelerationStructureReference =
      sceneC.bottomAccel.buffer.address ∧
    sceneC.bottomAccel.buffer.address ≠ 0 ∧
    (sceneC.events[1]? = some (Event.buildWaitReturned AccelType.bottomLevel) ∧
     sceneC.events[3]? =
       some (Event.instanceRefSet sceneC.bottomAccel.buffer.address) ∧
     sceneC.events[4]? = some (Event.buildSubmitted AccelType.topLevel)) :=
  blas_before_tlas_ordering devC sceneC
    (fun i => by show i + 100 ≠ 0; omega) rfl

/-- C9: a ray-tracing-pipeline creation failure and a shader-group-handle
fetch failure are each detected at the call that produced them and terminate
the run with the corresponding diagnostic message; the functions return the
abort outcome, not a retried or deferred result. -/
theorem fatal_error_diagnostics (dev : Device)
    (hp : dev.createRayTracingPipelineSucceeds = false)
    (hh : dev.getRayTracingShaderGroupHandles 0 shaderGroups.length
      (devSbtSize dev) = none) :
    createRayTracingPipeline dev =
      Except.error "Failed to create ray tracing pipeline." ∧
    createShaderBindingTable dev =
      Except.error "Failed to get ray tracing shader group handles." := by
  constructor
  · unfold createRayTracingPipeline
    rw [hp]
    rfl
  · unfold createShaderBindingTable
    rw [hh]

/-- C9 witness: the failing device `devFail`. -/
theorem fatal_error_diagnostics_witness :
    devFail.createRayTracingPipelineSucceeds = false ∧
    (createRayTracingPipeline devFail =
       Except.error "Failed to create ray tracing pipeline." ∧
     createShaderBindingTable devFail =
       Except.error "Failed to get ray tracing shader group handles.") :=
  ⟨rfl, fatal_error_diagnostics devFail rfl rfl⟩

/-- C10: the bottom-level primitive count is `indices.size() / 3` with integer
division — 1 for the fixed three-index triangle, which is what the build range
receives — and for an index count that is not a multiple of 3 the remainder
indices are silently dropped from the count (never rejected). -/
theorem blas_primitive_count_spec (dev : Device) (indices : List Nat)
    (as : AccelStruct) (evs : List Event)
    (hnd : ¬ 3 ∣ indices.length)
    (h : createBottomLevelAS dev = Except.ok (as, evs)) :
    blasPrimitiveCount indices = indices.length / 3 ∧
    blasPrimitiveCount triangleIndices = 1 ∧
    as.buildRange.primitiveCount = 1 ∧
    3 * blasPrimitiveCount indices < indices.length := by
  refine ⟨rfl, rfl, ?_, ?_⟩
  · exact (createBottomLevelAS_ok dev as evs h).2.2
  · have hmod : indices.length % 3 ≠ 0 := by
      intro hz
      exact hnd (Nat.dvd_of_mod_eq_zero hz)
    have hdm := Nat.div_add_mod indices.length 3
    have hlt : indices.length % 3 < 3 := Nat.mod_lt _ (by omega)
    unfold blasPrimitiveCount
    omega

/-- C10 witness: four indices (not a multiple of 3) give primitive count 1,
silently dropping the fourth index, and the concrete build on `devC` passes
primitive count 1. -/
theorem blas_primitive_count_spec_witness :
    ¬ 3 ∣ ([0, 1, 2, 3] : List Nat).length ∧
    (blasPrimitiveCount [0, 1, 2, 3] = ([0, 1, 2, 3] : List Nat).length / 3 ∧
     blasPrimitiveCount triangleIndices = 1 ∧
     blasPairC.1.buildRange.primitiveCount = 1 ∧
     3 * blasPrimitiveCount [0, 1, 2, 3] < ([0, 1, 2, 3] : List Nat).length) :=
  ⟨by decide,
   blas_primitive_count_spec devC [0, 1, 2, 3] blasPairC.1 blasPairC.2
     (by decide) rfl⟩

end VkRt
